import Mathlib

/-!
Shallow embedding of the flood-animation core of the repository:
the deterministic series generator (constants file), the playback state
and its transport operations (App component), and the nearest-sample
lookup used by the station map.  Times, playback state and the wall
clock are embedded as rationals; station readings, which the source
computes with the exponential function, are embedded as real numbers.
-/

namespace Karst

/-- One time-stamped record of the four station readings
(interface HydroDataPoint of the types file). -/
structure HydroDataPoint where
  time : ℚ
  label : String
  stZacharie : ℝ
  roquevaire : ℝ
  aubagne : ℝ
  marseille : ℝ

/-- TOTAL_HOURS constant of the generator. -/
def TOTAL_HOURS : ℕ := 48

/-- STEPS_PER_HOUR constant of the generator. -/
def STEPS_PER_HOUR : ℕ := 2

/-- MAX_TIME, exported by the constants file as TOTAL_HOURS. -/
def MAX_TIME : ℚ := (TOTAL_HOURS : ℚ)

/-- Constant base flow shared by the four stations. -/
noncomputable def base : ℝ := 0.3

/-- Runoff pulse at Marseille: 0.4 * exp(-(t - 6)^2 / 8). -/
noncomputable def runoffMarseille (t : ℚ) : ℝ :=
  0.4 * Real.exp (-((t : ℝ) - 6) ^ 2 / 8)

/-- Runoff pulse at Aubagne: 0.5 * exp(-(t - 7)^2 / 8). -/
noncomputable def runoffAubagne (t : ℚ) : ℝ :=
  0.5 * Real.exp (-((t : ℝ) - 7) ^ 2 / 8)

/-- Runoff pulse at Roquevaire: 0.6 * exp(-(t - 8)^2 / 8). -/
noncomputable def runoffRoquevaire (t : ℚ) : ℝ :=
  0.6 * Real.exp (-((t : ℝ) - 8) ^ 2 / 8)

/-- Runoff pulse at St Zacharie: 0.1 * exp(-(t - 9)^2 / 8). -/
noncomputable def runoffStZacharie (t : ℚ) : ℝ :=
  0.1 * Real.exp (-((t : ℝ) - 9) ^ 2 / 8)

/-- Karst pulse at St Zacharie: 1.2 * exp(-(t - 16)^2 / 15). -/
noncomputable def karstStZacharie (t : ℚ) : ℝ :=
  1.2 * Real.exp (-((t : ℝ) - 16) ^ 2 / 15)

/-- Karst pulse at Roquevaire: 1.3 * exp(-(t - 17.5)^2 / 18). -/
noncomputable def karstRoquevaire (t : ℚ) : ℝ :=
  1.3 * Real.exp (-((t : ℝ) - 17.5) ^ 2 / 18)

/-- Karst pulse at Aubagne: 0.9 * exp(-(t - 19)^2 / 20). -/
noncomputable def karstAubagne (t : ℚ) : ℝ :=
  0.9 * Real.exp (-((t : ℝ) - 19) ^ 2 / 20)

/-- Karst pulse at Marseille: 0.4 * exp(-(t - 21)^2 / 25). -/
noncomputable def karstMarseille (t : ℚ) : ℝ :=
  0.4 * Real.exp (-((t : ℝ) - 21) ^ 2 / 25)

/-- The remainder operation of the generator source.  On the nonnegative
dividends and positive divisors the generator uses it with, the
floor-based remainder below agrees with the truncation-based remainder
of the source language. -/
def jsMod (a b : ℚ) : ℚ := a - b * (⌊a / b⌋ : ℚ)

/-- Two-digit zero padding: the source writes n < 10 ? stick a zero in
front of the decimal digits : the decimal digits alone. -/
def pad2 (n : ℤ) : String :=
  if n < 10 then "0" ++ toString n else toString n

/-- Label computation of the generator loop body: day is floor(t / 24)
plus the calendar offset 9, hour is floor(t mod 24), minute is
floor((t mod 1) * 60), assembled as zero-padded DD-02 HH:MM. -/
def simLabel (t : ℚ) : String :=
  let day : ℤ := ⌊t / 24⌋ + 9
  let hour : ℤ := ⌊jsMod t 24⌋
  let m : ℤ := ⌊jsMod t 1 * 60⌋
  pad2 day ++ "-02 " ++ pad2 hour ++ ":" ++ pad2 m

/-- Body of the generator loop at sample time t: each station reading
is base + runoff + karst, the label is computed from t. -/
noncomputable def mkPoint (t : ℚ) : HydroDataPoint :=
  { time := t
    label := simLabel t
    stZacharie := base + runoffStZacharie t + karstStZacharie t
    roquevaire := base + runoffRoquevaire t + karstRoquevaire t
    aubagne := base + runoffAubagne t + karstAubagne t
    marseille := base + runoffMarseille t + karstMarseille t }

/-- The generated series: the loop runs i from 0 to
TOTAL_HOURS * STEPS_PER_HOUR inclusive with t = i / STEPS_PER_HOUR. -/
noncomputable def SIMULATION_DATA : List HydroDataPoint :=
  (List.range (TOTAL_HOURS * STEPS_PER_HOUR + 1)).map
    (fun i : ℕ => mkPoint ((i : ℚ) / (STEPS_PER_HOUR : ℚ)))

/-- Playback state of the App component (SimulationState of the types
file): currentTime, isPlaying, playbackSpeed. -/
structure SimState where
  currentTime : ℚ
  isPlaying : Bool
  playbackSpeed : ℚ
deriving DecidableEq, Repr

/-- handleSeek of the App component: stores the given time unchanged. -/
def handleSeek (time : ℚ) (s : SimState) : SimState :=
  { s with currentTime := time }

/-- Frame-advance body of animate in the App component, applied with
the elapsed wall-clock seconds delta: nextTime is
currentTime + delta * 2 * playbackSpeed; when nextTime reaches
MAX_TIME the state is clamped to MAX_TIME and playback stops,
otherwise currentTime becomes nextTime. -/
def animate (delta : ℚ) (s : SimState) : SimState :=
  let nextTime := s.currentTime + delta * 2 * s.playbackSpeed
  if MAX_TIME ≤ nextTime then
    { s with currentTime := MAX_TIME, isPlaying := false }
  else
    { s with currentTime := nextTime }

/-- handleSpeedChange of the App component: prev >= 4 ? 1 : prev * 2. -/
def handleSpeedChange (s : SimState) : SimState :=
  { s with playbackSpeed :=
      if 4 ≤ s.playbackSpeed then 1 else s.playbackSpeed * 2 }

/-- Nearest-sample lookup of the station map:
data.find(d => d.time >= currentTime) || data[data.length - 1],
with the undefined value of the source modelled as none. -/
noncomputable def currentData (data : List HydroDataPoint) (t : ℚ) :
    Option HydroDataPoint :=
  (data.find? (fun d => decide (t ≤ d.time))).orElse (fun _ => data.getLast?)

/-- The time field of a generated point is the loop time. -/
theorem mkPoint_time (t : ℚ) : (mkPoint t).time = t := rfl

/-- The generated series written with its bounds evaluated. -/
theorem simulation_data_eq :
    SIMULATION_DATA
      = (List.range 97).map (fun i : ℕ => mkPoint ((i : ℚ) / 2)) := by
  unfold SIMULATION_DATA TOTAL_HOURS STEPS_PER_HOUR
  norm_num

/-- The series has 97 samples. -/
theorem length_simulation_data : SIMULATION_DATA.length = 97 := by
  rw [simulation_data_eq]
  simp

/-- The sample times of the series, in order. -/
theorem map_time_eq :
    SIMULATION_DATA.map (fun d => d.time)
      = (List.range 97).map (fun i : ℕ => (i : ℚ) / 2) := by
  rw [simulation_data_eq, List.map_map]
  rfl

/-- Every series member is the generator body at a grid index. -/
theorem exists_index_of_mem {d : HydroDataPoint} (hd : d ∈ SIMULATION_DATA) :
    ∃ i : ℕ, i < 97 ∧ d = mkPoint ((i : ℚ) / 2) := by
  rw [simulation_data_eq] at hd
  obtain ⟨i, hi, rfl⟩ := List.mem_map.mp hd
  exact ⟨i, List.mem_range.mp hi, rfl⟩

/-- The generator body at any grid index is in the series. -/
theorem mem_simulation_data_of_index (i : ℕ) (hi : i < 97) :
    mkPoint ((i : ℚ) / 2) ∈ SIMULATION_DATA := by
  rw [simulation_data_eq]
  exact List.mem_map.mpr ⟨i, List.mem_range.mpr hi, rfl⟩

/-- Every sample time lies below MAX_TIME. -/
theorem time_le_max_of_mem {d : HydroDataPoint} (hd : d ∈ SIMULATION_DATA) :
    d.time ≤ MAX_TIME := by
  obtain ⟨i, hi, rfl⟩ := exists_index_of_mem hd
  rw [mkPoint_time]
  have hile : (i : ℚ) ≤ 96 := by
    exact_mod_cast Nat.le_of_lt_succ hi
  unfold MAX_TIME TOTAL_HOURS
  push_cast
  linarith

/-- Sample times are strictly increasing along the series. -/
theorem pairwise_time_lt :
    SIMULATION_DATA.Pairwise (fun a b => a.time < b.time) := by
  rw [simulation_data_eq]
  refine List.Pairwise.map _ (fun a b hab => ?_) (List.pairwise_lt_range 97)
  simp only [mkPoint_time]
  have hab' : (a : ℚ) < b := by exact_mod_cast hab
  linarith

/-- C5: the generated series has exactly 97 samples, consecutive sample
times differ by exactly one half hour, the times are strictly
increasing across the whole sequence, the first time is 0 and the last
time is MAX_TIME, which is 48. -/
theorem C5_series_shape :
    SIMULATION_DATA.length = 97 ∧
    (SIMULATION_DATA.map (fun d => d.time)).Chain' (fun a b => b = a + 1 / 2) ∧
    (SIMULATION_DATA.map (fun d => d.time)).Pairwise (fun a b => a < b) ∧
    (SIMULATION_DATA.map (fun d => d.time)).head? = some 0 ∧
    (SIMULATION_DATA.map (fun d => d.time)).getLast? = some MAX_TIME ∧
    MAX_TIME = 48 := by
  refine ⟨length_simulation_data, ?_, ?_, ?_, ?_, ?_⟩
  · rw [map_time_eq, List.chain'_map]
    rw [show (97 : ℕ) = 96 + 1 from rfl, List.chain'_range_succ]
    intro i _
    push_cast
    ring
  · rw [map_time_eq]
    refine List.Pairwise.map _ (fun a b hab => ?_) (List.pairwise_lt_range 97)
    have hab' : (a : ℚ) < b := by exact_mod_cast hab
    linarith
  · rw [map_time_eq, List.head?_map]
    rw [show (97 : ℕ) = 96 + 1 from rfl, List.range_succ_eq_map]
    norm_num
  · rw [map_time_eq, List.getLast?_map]
    rw [show (97 : ℕ) = 96 + 1 from rfl, List.range_succ, List.getLast?_concat]
    norm_num [MAX_TIME, TOTAL_HOURS]
  · norm_num [MAX_TIME, TOTAL_HOURS]

/-- C7: each of the four readings of every generated sample is at
least the shared base floor 0.3. -/
theorem C7_base_floor (d : HydroDataPoint) (hd : d ∈ SIMULATION_DATA) :
    (0.3 : ℝ) ≤ d.stZacharie ∧ (0.3 : ℝ) ≤ d.roquevaire ∧
    (0.3 : ℝ) ≤ d.aubagne ∧ (0.3 : ℝ) ≤ d.marseille := by
  obtain ⟨i, hi, rfl⟩ := exists_index_of_mem hd
  refine ⟨?_, ?_, ?_, ?_⟩
  · show (0.3 : ℝ) ≤ base + runoffStZacharie _ + karstStZacharie _
    have h1 : (0 : ℝ) ≤ runoffStZacharie ((i : ℚ) / 2) := by
      unfold runoffStZacharie; positivity
    have h2 : (0 : ℝ) ≤ karstStZacharie ((i : ℚ) / 2) := by
      unfold karstStZacharie; positivity
    unfold base; linarith
  · show (0.3 : ℝ) ≤ base + runoffRoquevaire _ + karstRoquevaire _
    have h1 : (0 : ℝ) ≤ runoffRoquevaire ((i : ℚ) / 2) := by
      unfold runoffRoquevaire; positivity
    have h2 : (0 : ℝ) ≤ karstRoquevaire ((i : ℚ) / 2) := by
      unfold karstRoquevaire; positivity
    unfold base; linarith
  · show (0.3 : ℝ) ≤ base + runoffAubagne _ + karstAubagne _
    have h1 : (0 : ℝ) ≤ runoffAubagne ((i : ℚ) / 2) := by
      unfold runoffAubagne; positivity
    have h2 : (0 : ℝ) ≤ karstAubagne ((i : ℚ) / 2) := by
      unfold karstAubagne; positivity
    unfold base; linarith
  · show (0.3 : ℝ) ≤ base + runoffMarseille _ + karstMarseille _
    have h1 : (0 : ℝ) ≤ runoffMarseille ((i : ℚ) / 2) := by
      unfold runoffMarseille; positivity
    have h2 : (0 : ℝ) ≤ karstMarseille ((i : ℚ) / 2) := by
      unfold karstMarseille; positivity
    unfold base; linarith

/-- C7 witness: the floor bound at the first sample. -/
theorem C7_base_floor_witness :
    (0.3 : ℝ) ≤ (mkPoint 0).stZacharie ∧
    (0.3 : ℝ) ≤ (mkPoint 0).roquevaire ∧
    (0.3 : ℝ) ≤ (mkPoint 0).aubagne ∧
    (0.3 : ℝ) ≤ (mkPoint 0).marseille :=
  C7_base_floor (mkPoint 0)
    (by simpa using mem_simulation_data_of_index 0 (by norm_num))

/-- A Gaussian pulse is strictly below its amplitude away from its
center. -/
theorem mul_exp_sq_lt (A w x : ℝ) (hA : 0 < A) (hw : 0 < w) (hx : x ≠ 0) :
    A * Real.exp (-x ^ 2 / w) < A := by
  have hx2 : 0 < x ^ 2 := by positivity
  have hneg : -x ^ 2 / w < 0 := div_neg_of_neg_of_pos (by linarith) hw
  calc A * Real.exp (-x ^ 2 / w) < A * 1 :=
        mul_lt_mul_of_pos_left (Real.exp_lt_one_iff.mpr hneg) hA
    _ = A := mul_one A

/-- Karst pulse value of St Zacharie at its center. -/
theorem karstStZacharie_at_peak : karstStZacharie 16 = 1.2 := by
  unfold karstStZacharie
  norm_num [Real.exp_zero]

/-- Karst pulse value of Roquevaire at its center. -/
theorem karstRoquevaire_at_peak : karstRoquevaire 17.5 = 1.3 := by
  unfold karstRoquevaire
  norm_num [Real.exp_zero]

/-- Karst pulse value of Aubagne at its center. -/
theorem karstAubagne_at_peak : karstAubagne 19 = 0.9 := by
  unfold karstAubagne
  norm_num [Real.exp_zero]

/-- Karst pulse value of Marseille at its center. -/
theorem karstMarseille_at_peak : karstMarseille 21 = 0.4 := by
  unfold karstMarseille
  norm_num [Real.exp_zero]

/-- Runoff pulse value of Marseille at its center. -/
theorem runoffMarseille_at_peak : runoffMarseille 6 = 0.4 := by
  unfold runoffMarseille
  norm_num [Real.exp_zero]

/-- Runoff pulse value of Aubagne at its center. -/
theorem runoffAubagne_at_peak : runoffAubagne 7 = 0.5 := by
  unfold runoffAubagne
  norm_num [Real.exp_zero]

/-- Runoff pulse value of Roquevaire at its center. -/
theorem runoffRoquevaire_at_peak : runoffRoquevaire 8 = 0.6 := by
  unfold runoffRoquevaire
  norm_num [Real.exp_zero]

/-- Runoff pulse value of St Zacharie at its center. -/
theorem runoffStZacharie_at_peak : runoffStZacharie 9 = 0.1 := by
  unfold runoffStZacharie
  norm_num [Real.exp_zero]

/-- Away from time 16 the karst pulse of St Zacharie is below its
peak value. -/
theorem karstStZacharie_peak (t : ℚ) (ht : t ≠ 16) :
    karstStZacharie t < karstStZacharie 16 := by
  rw [karstStZacharie_at_peak]
  unfold karstStZacharie
  have hx : (t : ℝ) - 16 ≠ 0 := by
    intro hc
    exact ht (by exact_mod_cast (by linarith : (t : ℝ) = 16))
  exact mul_exp_sq_lt 1.2 15 _ (by norm_num) (by norm_num) hx

/-- Away from time 17.5 the karst pulse of Roquevaire is below its
peak value. -/
theorem karstRoquevaire_peak (t : ℚ) (ht : t ≠ 17.5) :
    karstRoquevaire t < karstRoquevaire 17.5 := by
  rw [karstRoquevaire_at_peak]
  unfold karstRoquevaire
  have hx : (t : ℝ) - 17.5 ≠ 0 := by
    intro hc
    apply ht
    have h1 : (t : ℝ) = ((17.5 : ℚ) : ℝ) := by push_cast; norm_num; linarith
    exact_mod_cast h1
  exact mul_exp_sq_lt 1.3 18 _ (by norm_num) (by norm_num) hx

/-- Away from time 19 the karst pulse of Aubagne is below its peak
value. -/
theorem karstAubagne_peak (t : ℚ) (ht : t ≠ 19) :
    karstAubagne t < karstAubagne 19 := by
  rw [karstAubagne_at_peak]
  unfold karstAubagne
  have hx : (t : ℝ) - 19 ≠ 0 := by
    intro hc
    exact ht (by exact_mod_cast (by linarith : (t : ℝ) = 19))
  exact mul_exp_sq_lt 0.9 20 _ (by norm_num) (by norm_num) hx

/-- Away from time 21 the karst pulse of Marseille is below its peak
value. -/
theorem karstMarseille_peak (t : ℚ) (ht : t ≠ 21) :
    karstMarseille t < karstMarseille 21 := by
  rw [karstMarseille_at_peak]
  unfold karstMarseille
  have hx : (t : ℝ) - 21 ≠ 0 := by
    intro hc
    exact ht (by exact_mod_cast (by linarith : (t : ℝ) = 21))
  exact mul_exp_sq_lt 0.4 25 _ (by norm_num) (by norm_num) hx

/-- Away from time 6 the runoff pulse of Marseille is below its peak
value. -/
theorem runoffMarseille_peak (t : ℚ) (ht : t ≠ 6) :
    runoffMarseille t < runoffMarseille 6 := by
  rw [runoffMarseille_at_peak]
  unfold runoffMarseille
  have hx : (t : ℝ) - 6 ≠ 0 := by
    intro hc
    exact ht (by exact_mod_cast (by linarith : (t : ℝ) = 6))
  exact mul_exp_sq_lt 0.4 8 _ (by norm_num) (by norm_num) hx

/-- Away from time 7 the runoff pulse of Aubagne is below its peak
value. -/
theorem runoffAubagne_peak (t : ℚ) (ht : t ≠ 7) :
    runoffAubagne t < runoffAubagne 7 := by
  rw [runoffAubagne_at_peak]
  unfold runoffAubagne
  have hx : (t : ℝ) - 7 ≠ 0 := by
    intro hc
    exact ht (by exact_mod_cast (by linarith : (t : ℝ) = 7))
  exact mul_exp_sq_lt 0.5 8 _ (by norm_num) (by norm_num) hx

/-- Away from time 8 the runoff pulse of Roquevaire is below its peak
value. -/
theorem runoffRoquevaire_peak (t : ℚ) (ht : t ≠ 8) :
    runoffRoquevaire t < runoffRoquevaire 8 := by
  rw [runoffRoquevaire_at_peak]
  unfold runoffRoquevaire
  have hx : (t : ℝ) - 8 ≠ 0 := by
    intro hc
    exact ht (by exact_mod_cast (by linarith : (t : ℝ) = 8))
  exact mul_exp_sq_lt 0.6 8 _ (by norm_num) (by norm_num) hx

/-- Away from time 9 the runoff pulse of St Zacharie is below its
peak value. -/
theorem runoffStZacharie_peak (t : ℚ) (ht : t ≠ 9) :
    runoffStZacharie t < runoffStZacharie 9 := by
  rw [runoffStZacharie_at_peak]
  unfold runoffStZacharie
  have hx : (t : ℝ) - 9 ≠ 0 := by
    intro hc
    exact ht (by exact_mod_cast (by linarith : (t : ℝ) = 9))
  exact mul_exp_sq_lt 0.1 8 _ (by norm_num) (by norm_num) hx

/-- Every grid time is a sample time of the series. -/
theorem time_mem_of_index (i : ℕ) (hi : i < 97) :
    ((i : ℚ) / 2) ∈ SIMULATION_DATA.map (fun d => d.time) := by
  rw [map_time_eq]
  exact List.mem_map.mpr ⟨i, List.mem_range.mpr hi, rfl⟩

/-- On a list with strictly increasing times, find? with the
at-or-after predicate returns a member at or after the probe time
whose time is minimal among such members. -/
theorem find_sorted_min (p : ℚ) :
    ∀ (l : List HydroDataPoint), l.Pairwise (fun a b => a.time < b.time) →
      ∀ x, l.find? (fun d => decide (p ≤ d.time)) = some x →
        p ≤ x.time ∧ x ∈ l ∧ ∀ y ∈ l, p ≤ y.time → x.time ≤ y.time := by
  intro l
  induction l with
  | nil => intro _ x hx; simp at hx
  | cons a tl ih =>
    intro hpw x hfind
    rw [List.pairwise_cons] at hpw
    obtain ⟨ha, htl⟩ := hpw
    by_cases hp : p ≤ a.time
    · rw [List.find?_cons_of_pos _ (by simpa using hp)] at hfind
      obtain rfl : a = x := by simpa using hfind
      refine ⟨hp, List.mem_cons_self a tl, ?_⟩
      intro y hy hpy
      rcases List.mem_cons.mp hy with rfl | hy'
      · exact le_refl _
      · exact le_of_lt (ha y hy')
    · rw [List.find?_cons_of_neg _ (by simpa using hp)] at hfind
      obtain ⟨h1, h2, h3⟩ := ih htl x hfind
      refine ⟨h1, List.mem_cons_of_mem a h2, ?_⟩
      intro y hy hpy
      rcases List.mem_cons.mp hy with rfl | hy'
      · exact absurd hpy hp
      · exact h3 y hy' hpy

/-- On a list with strictly increasing times, the time field is
injective over the members. -/
theorem time_injective :
    ∀ (l : List HydroDataPoint), l.Pairwise (fun a b => a.time < b.time) →
      ∀ x ∈ l, ∀ y ∈ l, x.time = y.time → x = y := by
  intro l
  induction l with
  | nil => intro _ x hx; simp at hx
  | cons a tl ih =>
    intro hpw x hx y hy hxy
    rw [List.pairwise_cons] at hpw
    obtain ⟨ha, htl⟩ := hpw
    rcases List.mem_cons.mp hx with rfl | hx' <;>
      rcases List.mem_cons.mp hy with rfl | hy'
    · rfl
    · exact absurd hxy (ne_of_lt (ha y hy'))
    · exact absurd hxy.symm (ne_of_lt (ha x hx'))
    · exact ih htl x hx' y hy' hxy

/-- C4: for every probe time the lookup over the generated series
returns a sample and never fails; whenever some sample time is at or
after the probe, the returned sample is at or after the probe with the
smallest such time; when the probe exceeds every sample time the
lookup returns the last sample; and a probe equal to a sample time
returns that very sample. -/
theorem C4_sample_lookup (t : ℚ) :
    (∃ x, currentData SIMULATION_DATA t = some x ∧ x ∈ SIMULATION_DATA) ∧
    (∀ x, currentData SIMULATION_DATA t = some x →
      (∃ d ∈ SIMULATION_DATA, t ≤ d.time) →
        t ≤ x.time ∧ ∀ d ∈ SIMULATION_DATA, t ≤ d.time → x.time ≤ d.time) ∧
    ((∀ d ∈ SIMULATION_DATA, d.time < t) →
      currentData SIMULATION_DATA t = SIMULATION_DATA.getLast?) ∧
    (∀ d ∈ SIMULATION_DATA, d.time = t →
      currentData SIMULATION_DATA t = some d) := by
  cases hf : SIMULATION_DATA.find? (fun d => decide (t ≤ d.time)) with
  | some x =>
    have hcd : currentData SIMULATION_DATA t = some x := by
      unfold currentData
      rw [hf]
      rfl
    obtain ⟨hx1, hx2, hx3⟩ :=
      find_sorted_min t SIMULATION_DATA pairwise_time_lt x hf
    refine ⟨⟨x, hcd, hx2⟩, ?_, ?_, ?_⟩
    · intro y hy _
      rw [hcd] at hy
      obtain rfl := Option.some.inj hy
      exact ⟨hx1, hx3⟩
    · intro hall
      exact absurd hx1 (not_le.mpr (hall x hx2))
    · intro d hd hdt
      rw [hcd]
      have hle : x.time ≤ d.time := hx3 d hd (le_of_eq hdt.symm)
      have hge : d.time ≤ x.time := hdt ▸ hx1
      have hxd : x = d :=
        time_injective SIMULATION_DATA pairwise_time_lt x hx2 d hd
          (le_antisymm hle hge)
      rw [hxd]
  | none =>
    have hcd : currentData SIMULATION_DATA t = SIMULATION_DATA.getLast? := by
      unfold currentData
      rw [hf]
      rfl
    have hnone := List.find?_eq_none.mp hf
    have hne : SIMULATION_DATA ≠ [] := by
      intro h
      have := length_simulation_data
      rw [h] at this
      simp at this
    refine ⟨?_, ?_, fun _ => hcd, ?_⟩
    · refine ⟨SIMULATION_DATA.getLast hne, ?_, List.getLast_mem hne⟩
      rw [hcd]
      exact List.getLast?_eq_getLast _ hne
    · intro x hx hex
      obtain ⟨d, hd, hdt⟩ := hex
      exact absurd hdt (by simpa using hnone d hd)
    · intro d hd hdt
      have := hnone d hd
      rw [hdt] at this
      simp at this

/-- C4 witness: a probe beyond every sample time, here 100, makes the
lookup return the last sample of the series. -/
theorem C4_sample_lookup_witness :
    currentData SIMULATION_DATA 100 = SIMULATION_DATA.getLast? :=
  (C4_sample_lookup 100).2.2.1 (fun d hd =>
    lt_of_le_of_lt (time_le_max_of_mem hd)
      (by norm_num [MAX_TIME, TOTAL_HOURS]))

/-- C9: every label of the series is the zero-padded DD-MM HH:MM
string built from its own time, with day floor(t / 24) plus the fixed
calendar offset 9, the fixed month 02, hour floor(t mod 24) and
minute floor((t mod 1) * 60); samples with equal times carry equal
labels. -/
theorem C9_label_format (d : HydroDataPoint) (hd : d ∈ SIMULATION_DATA) :
    d.label =
      pad2 (⌊d.time / 24⌋ + 9) ++ "-02 " ++ pad2 ⌊jsMod d.time 24⌋ ++ ":" ++
        pad2 ⌊jsMod d.time 1 * 60⌋ ∧
    ∀ e ∈ SIMULATION_DATA, e.time = d.time → e.label = d.label := by
  obtain ⟨i, hi, rfl⟩ := exists_index_of_mem hd
  constructor
  · rfl
  · intro e he het
    obtain ⟨j, hj, rfl⟩ := exists_index_of_mem he
    rw [mkPoint_time, mkPoint_time] at het
    rw [show ((j : ℚ) / 2) = ((i : ℚ) / 2) from het]

/-- C9 witness: the label shape at the first sample of the series. -/
theorem C9_label_format_witness :
    (mkPoint 0).label =
      pad2 (⌊(mkPoint 0).time / 24⌋ + 9) ++ "-02 " ++
        pad2 ⌊jsMod (mkPoint 0).time 24⌋ ++ ":" ++
        pad2 ⌊jsMod (mkPoint 0).time 1 * 60⌋ :=
  (C9_label_format (mkPoint 0)
    (by simpa using mem_simulation_data_of_index 0 (by norm_num))).1

/-- C2 counterexample: the karst amplitudes are 1.2 at the
most-upstream St Zacharie and 1.3 at the next station downstream,
Roquevaire, so the Roquevaire karst pulse is NOT strictly smaller than
the pulse of the station immediately upstream of it. -/
theorem C2_karst_attenuation_cex :
    karstStZacharie 16 = 1.2 ∧ karstRoquevaire 17.5 = 1.3 ∧
    ¬ karstRoquevaire 17.5 < karstStZacharie 16 := by
  refine ⟨karstStZacharie_at_peak, karstRoquevaire_at_peak, ?_⟩
  rw [karstStZacharie_at_peak, karstRoquevaire_at_peak]
  norm_num

/-- C2 (amended): over the sample times of the series each karst pulse
attains a unique peak, at 16, 17.5, 19 and 21 hours from St Zacharie
downstream, so each downstream peak is strictly later; the amplitudes
attenuate strictly from Roquevaire downstream (1.3, 0.9, 0.4), but the
Roquevaire amplitude 1.3 strictly exceeds the upstream St Zacharie
amplitude 1.2. -/
theorem C2_karst_wave (t : ℚ)
    (hmem : t ∈ SIMULATION_DATA.map (fun d => d.time)) :
    ((16 : ℚ) ∈ SIMULATION_DATA.map (fun d => d.time) ∧
     (17.5 : ℚ) ∈ SIMULATION_DATA.map (fun d => d.time) ∧
     (19 : ℚ) ∈ SIMULATION_DATA.map (fun d => d.time) ∧
     (21 : ℚ) ∈ SIMULATION_DATA.map (fun d => d.time)) ∧
    (t ≠ 16 → karstStZacharie t < karstStZacharie 16) ∧
    (t ≠ 17.5 → karstRoquevaire t < karstRoquevaire 17.5) ∧
    (t ≠ 19 → karstAubagne t < karstAubagne 19) ∧
    (t ≠ 21 → karstMarseille t < karstMarseille 21) ∧
    ((16 : ℚ) < 17.5 ∧ (17.5 : ℚ) < 19 ∧ (19 : ℚ) < 21) ∧
    (karstStZacharie 16 < karstRoquevaire 17.5 ∧
     karstAubagne 19 < karstRoquevaire 17.5 ∧
     karstMarseille 21 < karstAubagne 19) := by
  refine ⟨⟨?_, ?_, ?_, ?_⟩,
    karstStZacharie_peak t, karstRoquevaire_peak t,
    karstAubagne_peak t, karstMarseille_peak t,
    ⟨by norm_num, by norm_num, by norm_num⟩, ?_, ?_, ?_⟩
  · have h := time_mem_of_index 32 (by norm_num)
    have e : ((32 : ℕ) : ℚ) / 2 = 16 := by norm_num
    rwa [e] at h
  · have h := time_mem_of_index 35 (by norm_num)
    have e : ((35 : ℕ) : ℚ) / 2 = 17.5 := by norm_num
    rwa [e] at h
  · have h := time_mem_of_index 38 (by norm_num)
    have e : ((38 : ℕ) : ℚ) / 2 = 19 := by norm_num
    rwa [e] at h
  · have h := time_mem_of_index 42 (by norm_num)
    have e : ((42 : ℕ) : ℚ) / 2 = 21 := by norm_num
    rwa [e] at h
  · rw [karstStZacharie_at_peak, karstRoquevaire_at_peak]
    norm_num
  · rw [karstAubagne_at_peak, karstRoquevaire_at_peak]
    norm_num
  · rw [karstMarseille_at_peak, karstAubagne_at_peak]
    norm_num

/-- C2 witness: the sample time 0 is in the series and its St Zacharie
karst value is below the peak value at 16 hours. -/
theorem C2_karst_wave_witness :
    karstStZacharie 0 < karstStZacharie 16 :=
  ((C2_karst_wave 0
      (by simpa using time_mem_of_index 0 (by norm_num))).2.1)
    (by norm_num)

/-- C6: over the sample times of the series each runoff pulse attains
a unique peak, at 6 hours at the most-downstream Marseille and then
strictly later at 7, 8 and 9 hours moving upstream, and the
most-upstream St Zacharie has both the latest runoff peak and the
strictly smallest runoff amplitude (0.1 against 0.4, 0.5, 0.6). -/
theorem C6_runoff_wave (t : ℚ)
    (hmem : t ∈ SIMULATION_DATA.map (fun d => d.time)) :
    ((6 : ℚ) ∈ SIMULATION_DATA.map (fun d => d.time) ∧
     (7 : ℚ) ∈ SIMULATION_DATA.map (fun d => d.time) ∧
     (8 : ℚ) ∈ SIMULATION_DATA.map (fun d => d.time) ∧
     (9 : ℚ) ∈ SIMULATION_DATA.map (fun d => d.time)) ∧
    (t ≠ 6 → runoffMarseille t < runoffMarseille 6) ∧
    (t ≠ 7 → runoffAubagne t < runoffAubagne 7) ∧
    (t ≠ 8 → runoffRoquevaire t < runoffRoquevaire 8) ∧
    (t ≠ 9 → runoffStZacharie t < runoffStZacharie 9) ∧
    ((6 : ℚ) < 7 ∧ (7 : ℚ) < 8 ∧ (8 : ℚ) < 9) ∧
    (runoffStZacharie 9 < runoffMarseille 6 ∧
     runoffStZacharie 9 < runoffAubagne 7 ∧
     runoffStZacharie 9 < runoffRoquevaire 8) := by
  refine ⟨⟨?_, ?_, ?_, ?_⟩,
    runoffMarseille_peak t, runoffAubagne_peak t,
    runoffRoquevaire_peak t, runoffStZacharie_peak t,
    ⟨by norm_num, by norm_num, by norm_num⟩, ?_, ?_, ?_⟩
  · have h := time_mem_of_index 12 (by norm_num)
    have e : ((12 : ℕ) : ℚ) / 2 = 6 := by norm_num
    rwa [e] at h
  · have h := time_mem_of_index 14 (by norm_num)
    have e : ((14 : ℕ) : ℚ) / 2 = 7 := by norm_num
    rwa [e] at h
  · have h := time_mem_of_index 16 (by norm_num)
    have e : ((16 : ℕ) : ℚ) / 2 = 8 := by norm_num
    rwa [e] at h
  · have h := time_mem_of_index 18 (by norm_num)
    have e : ((18 : ℕ) : ℚ) / 2 = 9 := by norm_num
    rwa [e] at h
  · rw [runoffStZacharie_at_peak, runoffMarseille_at_peak]
    norm_num
  · rw [runoffStZacharie_at_peak, runoffAubagne_at_peak]
    norm_num
  · rw [runoffStZacharie_at_peak, runoffRoquevaire_at_peak]
    norm_num

/-- C6 witness: the sample time 0 is in the series and its Marseille
runoff value is below the peak value at 6 hours. -/
theorem C6_runoff_wave_witness :
    runoffMarseille 0 < runoffMarseille 6 :=
  ((C6_runoff_wave 0
      (by simpa using time_mem_of_index 0 (by norm_num))).2.1)
    (by norm_num)

/-- C1: the claim demands clamp(t, 0, maxTime); handleSeek stores t
unclamped, so at t = -1 the stored time is -1, not the clamped 0. -/
theorem C1_seek_no_clamp_cex :
    (handleSeek (-1) ⟨0, false, 1⟩).currentTime = -1 ∧
    (handleSeek (-1) ⟨0, false, 1⟩).currentTime ≠
      max 0 (min (-1) MAX_TIME) := by
  refine ⟨rfl, ?_⟩
  have h : max (0 : ℚ) (min (-1) MAX_TIME) = 0 := by
    rw [max_eq_left]
    exact le_trans (min_le_left _ _) (by norm_num)
  rw [h]
  norm_num [handleSeek]

/-- C1 (amended): handleSeek stores exactly the requested time, with no
clamping to the interval from 0 to MAX_TIME, whether playing or not. -/
theorem C1_seek_sets_time_unclamped (t : ℚ) (s : SimState) :
    (handleSeek t s).currentTime = t := rfl

/-- C10: handleSeek changes only currentTime; isPlaying and
playbackSpeed are untouched. -/
theorem C10_seek_frame (t : ℚ) (s : SimState) :
    (handleSeek t s).isPlaying = s.isPlaying ∧
    (handleSeek t s).playbackSpeed = s.playbackSpeed :=
  ⟨rfl, rfl⟩

/-- C3: while playing, a frame advance with nonnegative wall delta sets
currentTime to the minimum of the unclamped next time and MAX_TIME;
whenever the clamp fires, playback stops; and any further nonnegative
advance keeps currentTime at exactly MAX_TIME with playback stopped. -/
theorem C3_animate_advance (s : SimState) (delta : ℚ)
    (hp : s.isPlaying = true) (hd : 0 ≤ delta) (hs : 0 ≤ s.playbackSpeed) :
    (animate delta s).currentTime =
      min (s.currentTime + delta * 2 * s.playbackSpeed) MAX_TIME ∧
    (MAX_TIME ≤ s.currentTime + delta * 2 * s.playbackSpeed →
      (animate delta s).isPlaying = false) ∧
    (MAX_TIME ≤ s.currentTime + delta * 2 * s.playbackSpeed →
      ∀ d2 : ℚ, 0 ≤ d2 →
        (animate d2 (animate delta s)).currentTime = MAX_TIME ∧
        (animate d2 (animate delta s)).isPlaying = false) := by
  by_cases h : MAX_TIME ≤ s.currentTime + delta * 2 * s.playbackSpeed
  · have hmin : min (s.currentTime + delta * 2 * s.playbackSpeed) MAX_TIME
        = MAX_TIME := min_eq_right h
    have hclamp : animate delta s =
        { s with currentTime := MAX_TIME, isPlaying := false } := by
      simp [animate, h]
    refine ⟨?_, fun _ => ?_, fun _ d2 hd2 => ?_⟩
    · rw [hclamp, hmin]
    · rw [hclamp]
    · have h2 : MAX_TIME ≤ MAX_TIME + d2 * 2 * s.playbackSpeed := by
        have : 0 ≤ d2 * 2 * s.playbackSpeed := by positivity
        linarith

      rw [hclamp]
      constructor
      · simp [animate, h2]
      · simp [animate, h2]
  · have h' : s.currentTime + delta * 2 * s.playbackSpeed < MAX_TIME :=
      not_le.mp h
    have hmin : min (s.currentTime + delta * 2 * s.playbackSpeed) MAX_TIME
        = s.currentTime + delta * 2 * s.playbackSpeed :=
      min_eq_left (le_of_lt h')
    refine ⟨?_, fun hc => absurd hc h, fun hc => absurd hc h⟩
    rw [hmin]
    simp [animate, h]

/-- C3 witness: from currentTime 47 at speed 1, a one-second frame
overshoots MAX_TIME, so the state clamps and a further advance keeps
it clamped and paused. -/
theorem C3_animate_advance_witness :
    (animate 0 (animate 1 ⟨47, true, 1⟩)).currentTime = MAX_TIME ∧
    (animate 0 (animate 1 ⟨47, true, 1⟩)).isPlaying = false :=
  (C3_animate_advance ⟨47, true, 1⟩ 1 rfl (by norm_num) (by norm_num)).2.2
    (by norm_num [MAX_TIME, TOTAL_HOURS]) 0 le_rfl

/-- C8: speed cycling maps 1 to 2, 2 to 4 and 4 to 1, keeps the speed
inside the set with elements 1, 2 and 4, and three successive
applications restore the starting speed. -/
theorem C8_speed_cycle (s : SimState)
    (h : s.playbackSpeed ∈ ({1, 2, 4} : Finset ℚ)) :
    (handleSpeedChange s).playbackSpeed ∈ ({1, 2, 4} : Finset ℚ) ∧
    (handleSpeedChange (handleSpeedChange (handleSpeedChange s))).playbackSpeed
      = s.playbackSpeed ∧
    (s.playbackSpeed = 1 → (handleSpeedChange s).playbackSpeed = 2) ∧
    (s.playbackSpeed = 2 → (handleSpeedChange s).playbackSpeed = 4) ∧
    (s.playbackSpeed = 4 → (handleSpeedChange s).playbackSpeed = 1) := by
  simp only [Finset.mem_insert, Finset.mem_singleton] at h
  rcases h with h | h | h <;>
    simp [handleSpeedChange, h] <;> norm_num

/-- C8 witness: starting from speed 1, three cycles return to 1. -/
theorem C8_speed_cycle_witness :
    (handleSpeedChange (handleSpeedChange (handleSpeedChange
      ⟨0, false, 1⟩))).playbackSpeed = (⟨0, false, 1⟩ : SimState).playbackSpeed :=
  (C8_speed_cycle ⟨0, false, 1⟩ (by decide)).2.1

end Karst
